import Mathlib

/-!
Shallow embedding of the monster/battle REST service (Rust, actix-web +
diesel) and proofs about its battle-resolution engine and its store-level
handlers.

Source layout mirrored here:
  * `Monster`, `Battle`            — src/src/models/monster.rs, battle.rs
  * `Database`                     — an explicit functional model of the
                                     relational store (monsters + battles)
  * `MonsterRepository`            — src/src/repository/monster_repository.rs
                                     is absent from the sources; its
                                     operations are modelled from the spec
  * `BattleRepository.create_battle` — src/src/repository/battle_repository.rs
  * `BattleApis.create_battle`     — src/src/api/battle_apis.rs (turn order,
                                     combat loop, persistence)
  * `MonsterApis.create_monster`, `MonsterApis.import_csv`
                                   — src/src/api/monster_apis.rs

Rust `i32` stats are embedded as `Int`; the combat loop only ever subtracts
a damage value in `[1, attack - defense]` from an `hp` that is still
positive, so for any stats representable in `i32` the arithmetic below
coincides with the source's `i32` arithmetic.  Non-deterministic effects
(UUID generation) are passed in as explicit arguments; the UUID format
check `Uuid::parse_str(..).is_ok()` is abstracted as a boolean predicate
argument.
-/

/-- Creature record, from `src/src/models/monster.rs` (`pub struct Monster`).
Timestamps are store-managed opaque values, embedded as `Option Int`. -/
structure Monster where
  id : String
  name : String
  image_url : String
  attack : Int
  defense : Int
  hp : Int
  speed : Int
  created_at : Option Int
  updated_at : Option Int
deriving Repr, DecidableEq

/-- The field-level validator attached to `Monster` in
`src/src/models/monster.rs`: the single annotation
`#[validate(range(min = 0, max = 100))]` on `attack`.  `validate().is_ok()`
therefore holds exactly when `0 ≤ attack ≤ 100`. -/
def Monster.validate (m : Monster) : Bool :=
  0 ≤ m.attack && m.attack ≤ 100

/-- Battle record, from `src/src/models/battle.rs` (`pub struct Battle`).
`winner` carries `#[serde(default)]`: a request body that omits it
deserializes with `winner = ""`. -/
structure Battle where
  id : String
  monster_a : String
  monster_b : String
  winner : String
  created_at : Option Int
  updated_at : Option Int
deriving Repr, DecidableEq

/-- Functional model of the relational store behind `Database`
(tables `monsters` and `battles` of `src/src/repository/schema.rs`). -/
structure Database where
  monsters : List Monster
  battles : List Battle
deriving Repr, DecidableEq

namespace MonsterRepository

/-- Modelled from the spec: `monster_repository.rs` is not among the
sources; spec §6 gives the creature lookup as
`get_by_id(id) -> Creature | absent`, returning a point-in-time snapshot
(a copy) of the stored record. -/
def get_monster_by_id (db : Database) (id : String) : Option Monster :=
  db.monsters.find? (fun m => m.id == id)

/-- Modelled from the spec: `monster_repository.rs` is not among the
sources; spec §6 gives the store insert as
`insert(x) -> stored | storage_error`, and, by analogy with the visible
`battle_repository::create_battle`, the repository assigns a generated id
and store-managed timestamps and inserts the record as given — spec §3/§9:
stat ranges are checked by the surrounding validator at the data-entry
boundary, not by the store. -/
def create_monster (db : Database) (m : Monster) (freshId : String) :
    Database × Except String Monster :=
  let m := { m with id := freshId, created_at := none, updated_at := none }
  ({ db with monsters := db.monsters ++ [m] }, Except.ok m)

end MonsterRepository

namespace BattleRepository

/-- From `src/src/repository/battle_repository.rs`: `create_battle`
overwrites `id` with a fresh UUID (passed in here as `freshId`), clears the
timestamps, inserts the record into `battles`, and returns it; the only
`return` is `Ok`. -/
def create_battle (db : Database) (battle : Battle) (freshId : String) :
    Database × Except String Battle :=
  let battle := { battle with id := freshId, created_at := none, updated_at := none }
  ({ db with battles := db.battles ++ [battle] }, Except.ok battle)

end BattleRepository

namespace BattleApis

/-- Damage of one attack, from the two identical inline `match` expressions
in `create_battle` (src/src/api/battle_apis.rs): `attack - defense`, floored
to `1` when the difference is `≤ 0`.  Both the first and the second actor's
attacks in `battleLoop` below are computed by this one function. -/
def damageOf (attack defense : Int) : Int :=
  let diff := attack - defense
  if diff ≤ 0 then 1 else diff

/-- Turn-order resolution, from the `if`/`else` chain in `create_battle`
(src/src/api/battle_apis.rs): higher `speed` first; on equal speed, higher
`attack` first; in every remaining case (equal speed, `attack_a ≤ attack_b`)
monster b is first. -/
def turnOrder (monster_a monster_b : Monster) : Monster × Monster :=
  if monster_a.speed > monster_b.speed then (monster_a, monster_b)
  else if monster_a.speed < monster_b.speed then (monster_b, monster_a)
  else if monster_a.attack > monster_b.attack then (monster_a, monster_b)
  else (monster_b, monster_a)

/-- The combat `while` loop of `create_battle`
(src/src/api/battle_apis.rs): while both actors have `hp > 0`, the first
actor hits the second and, if the second survives, the second hits back;
`winner` is assigned exactly at the two `break` points.  Returns the final
value of `new_battle.winner` (the argument `winner` when the loop body
never assigns it) paired with the number of attacks performed — the second
component instruments the loop for the round-count claims and has no
counterpart in the source. -/
def battleLoop (first second : Monster) (winner : String) : String × Nat :=
  if _h : first.hp > 0 ∧ second.hp > 0 then
    let damage := damageOf first.attack second.defense
    let second := { second with hp := second.hp - damage }
    if second.hp ≤ 0 then
      (first.id, 1)
    else
      let damage := damageOf second.attack first.defense
      let first := { first with hp := first.hp - damage }
      if first.hp ≤ 0 then
        (second.id, 2)
      else
        let r := battleLoop first second winner
        (r.1, r.2 + 2)
  else (winner, 0)
termination_by (first.hp + second.hp).toNat
decreasing_by
  have hd : ∀ a d : Int, 1 ≤ damageOf a d := by
    intro a d
    simp only [damageOf]
    split <;> omega
  have h1 := hd first.attack second.defense
  have h2 := hd second.attack first.defense
  simp only [Monster.hp] at *
  omega

/-- Responses of the `POST /battles` handler that matter to the model. -/
inductive CreateBattleResponse where
  | notFound (msg : String)
  | created (battle : Battle)
  | internalServerError (msg : String)
deriving Repr, DecidableEq

/-- The `POST /battles` handler `create_battle`
(src/src/api/battle_apis.rs).  `validUuid` abstracts
`Uuid::parse_str(..).is_ok()`; `freshId` is the UUID generated inside
`battle_repository::create_battle`; `new_battle` is the deserialized
request body (with `winner = ""` when the client omits it). -/
def create_battle (validUuid : String → Bool) (db : Database)
    (new_battle : Battle) (freshId : String) :
    Database × CreateBattleResponse :=
  if ¬ validUuid new_battle.monster_a then
    (db, CreateBattleResponse.notFound "Monster a not found")
  else if ¬ validUuid new_battle.monster_b then
    (db, CreateBattleResponse.notFound "Monster b not found")
  else
    match MonsterRepository.get_monster_by_id db new_battle.monster_a with
    | none => (db, CreateBattleResponse.notFound "Monster a not found")
    | some monster_a =>
      match MonsterRepository.get_monster_by_id db new_battle.monster_b with
      | none => (db, CreateBattleResponse.notFound "Monster b not found")
      | some monster_b =>
        let fs := turnOrder monster_a monster_b
        let new_battle :=
          { new_battle with winner := (battleLoop fs.1 fs.2 new_battle.winner).1 }
        match BattleRepository.create_battle db new_battle freshId with
        | (db, Except.ok battle) => (db, CreateBattleResponse.created battle)
        | (db, Except.error err) => (db, CreateBattleResponse.internalServerError err)

end BattleApis

namespace MonsterApis

/-- Responses of the monster handlers that matter to the model. -/
inductive CreateMonsterResponse where
  | notFound (msg : String)
  | created (monster : Monster)
  | internalServerError (msg : String)
deriving Repr, DecidableEq

/-- The `POST /monsters` handler `create_monster`
(src/src/api/monster_apis.rs): reject the body when `validate()` fails
(status 404, "Invalid data"), otherwise insert it through the repository. -/
def create_monster (db : Database) (new_monster : Monster) (freshId : String) :
    Database × CreateMonsterResponse :=
  if ¬ new_monster.validate then
    (db, CreateMonsterResponse.notFound "Invalid data")
  else
    match MonsterRepository.create_monster db new_monster freshId with
    | (db, Except.ok monster) => (db, CreateMonsterResponse.created monster)
    | (db, Except.error err) => (db, CreateMonsterResponse.internalServerError err)

/-- Responses of the `POST /monsters/import_csv` handler that matter to the
model. -/
inductive ImportCsvResponse where
  | badRequest (msg : String)
  | internalServerError (msg : String)
  | ok (monsters : List Monster)
deriving Repr, DecidableEq

/-- The row-reading loop of `import_csv` (src/src/api/monster_apis.rs):
`reader.deserialize::<Monster>()` yields one `Result` per CSV row —
embedded here as `Option Monster`, `none` marking a row that fails to
deserialize.  Rows are pushed into `new_monsters` in order; the first
failing row makes the whole handler return early with 400. -/
def readMonsters : List (Option Monster) → Except String (List Monster)
  | [] => Except.ok []
  | none :: _ => Except.error "Incomplete data, check your file."
  | some m :: rest =>
    match readMonsters rest with
    | Except.ok ms => Except.ok (m :: ms)
    | Except.error e => Except.error e

/-- The insert phase of `import_csv` (src/src/api/monster_apis.rs): each
parsed monster is passed to `monster_repository::create_monster`; the
`Ok` results are collected in order.  `supply k` stands for the UUID
generated for the `k`-th insert. -/
def insertAll (db : Database) (supply : Nat → String) (k : Nat) :
    List Monster → Database × List Monster
  | [] => (db, [])
  | m :: ms =>
    match MonsterRepository.create_monster db m (supply k) with
    | (db, Except.ok monster) =>
      let r := insertAll db supply (k + 1) ms
      (r.1, monster :: r.2)
    | (db, Except.error _) => insertAll db supply (k + 1) ms

/-- The `POST /monsters/import_csv` handler, from the point where the
uploaded file has been received and handed to the CSV reader
(src/src/api/monster_apis.rs): parse every row, returning 400 on the first
row that fails to deserialize; reject an empty row set; otherwise insert
every parsed monster and answer 200 with the successfully created ones
(500 if none succeeded). -/
def import_csv (db : Database) (rows : List (Option Monster))
    (supply : Nat → String) : Database × ImportCsvResponse :=
  match readMonsters rows with
  | Except.error e => (db, ImportCsvResponse.badRequest e)
  | Except.ok new_monsters =>
    if new_monsters.isEmpty then
      (db, ImportCsvResponse.badRequest "No valid monsters found in the CSV file")
    else
      let r := insertAll db supply 0 new_monsters
      if r.2.isEmpty then
        (r.1, ImportCsvResponse.internalServerError "Failed to create monsters")
      else
        (r.1, ImportCsvResponse.ok r.2)

end MonsterApis

/-!  Concrete fixtures used by the closed-form theorems and witnesses. -/

/-- Spec §8, scenario 1, creature A: speed 50, attack 30, defense 10, hp 50. -/
def scenarioA : Monster :=
  ⟨"scenario-a", "A", "img-a", 30, 10, 50, 50, none, none⟩

/-- Spec §8, scenario 1, creature B: speed 40, attack 20, defense 5, hp 40. -/
def scenarioB : Monster :=
  ⟨"scenario-b", "B", "img-b", 20, 5, 40, 40, none, none⟩

/-- Store holding the two scenario-1 creatures. -/
def dbScenario : Database := ⟨[scenarioA, scenarioB], []⟩

/-- A `POST /battles` body referencing the two scenario-1 creatures, with
`winner` omitted by the client (serde default `""`). -/
def requestScenario : Battle := ⟨"", "scenario-a", "scenario-b", "", none, none⟩

/-- Spec §8, scenario 3: a creature that starts the battle with `hp = 0`;
stats otherwise identical to `aliveB`. -/
def deadA : Monster := ⟨"dead-a", "DeadA", "img-d", 5, 5, 0, 5, none, none⟩

/-- Spec §8, scenario 3: the opposing creature with `hp = 10`. -/
def aliveB : Monster := ⟨"alive-b", "AliveB", "img-e", 5, 5, 10, 5, none, none⟩

/-- Store holding `deadA` and `aliveB`. -/
def dbDead : Database := ⟨[deadA, aliveB], []⟩

/-- A `POST /battles` body referencing `deadA` and `aliveB`, with `winner`
omitted by the client (serde default `""`). -/
def requestDead : Battle := ⟨"", "dead-a", "alive-b", "", none, none⟩

/-- A UUID-format check that accepts every identifier, standing in for
`Uuid::parse_str` on well-formed inputs. -/
def allValid : String → Bool := fun _ => true

/-- A CSV row whose `attack` field, 200, lies outside the validator's
`[0, 100]` range; it deserializes fine (any `i32` does). -/
def overAttack : Monster := ⟨"", "overgrown rabbit", "img-o", 200, 5, 10, 5, none, none⟩

/-- The empty store. -/
def emptyDb : Database := ⟨[], []⟩

/-- A deterministic UUID supply for the CSV import inserts. -/
def csvSupply : Nat → String := fun k => "csv-" ++ toString k

/-!  Helper lemmas about the engine and the handlers. -/

namespace BattleApis

/-- Every attack deals at least 1 damage. -/
theorem one_le_damageOf (a d : Int) : 1 ≤ damageOf a d := by
  simp only [damageOf]
  split <;> omega

/-- `turnOrder` returns the two inputs in one of the two orders. -/
theorem turnOrder_cases (a b : Monster) :
    turnOrder a b = (a, b) ∨ turnOrder a b = (b, a) := by
  simp only [turnOrder]
  split
  · exact Or.inl rfl
  · split
    · exact Or.inr rfl
    · split
      · exact Or.inl rfl
      · exact Or.inr rfl

/-- When either actor starts with `hp ≤ 0` the loop guard fails at once:
no attack happens and `winner` keeps the value it had before the loop. -/
theorem battleLoop_no_iteration (first second : Monster) (winner : String)
    (h : first.hp ≤ 0 ∨ second.hp ≤ 0) :
    battleLoop first second winner = (winner, 0) := by
  rw [battleLoop]
  rw [dif_neg]
  omega

/-- When both actors start with positive `hp` the loop ends by assigning
the id of one of the two actors. -/
theorem battleLoop_winner_mem (first second : Monster) (winner : String) :
    0 < first.hp → 0 < second.hp →
    (battleLoop first second winner).1 = first.id ∨
      (battleLoop first second winner).1 = second.id := by
  induction first, second, winner using battleLoop.induct with
  | case1 first second winner h damage second1 hdead =>
    intro _ _
    rw [battleLoop, dif_pos h]
    simp only at hdead ⊢
    rw [if_pos hdead]
    exact Or.inl rfl
  | case2 first second winner h damage1 second1 halive damage2 first1 hdead =>
    intro _ _
    rw [battleLoop, dif_pos h]
    simp only at halive hdead ⊢
    rw [if_neg halive, if_pos hdead]
    exact Or.inr rfl
  | case3 first second winner h damage1 second1 halive damage2 first1 halive2 ih =>
    intro _ _
    rw [battleLoop, dif_pos h]
    simp only at halive halive2 ih ⊢
    rw [if_neg halive, if_neg halive2]
    have := ih (by omega) (by omega)
    simpa using this
  | case4 first second winner h =>
    intro h1 h2
    omega

/-- The loop performs at most `first.hp + second.hp` attacks when both
starting `hp` values are non-negative. -/
theorem battleLoop_count_le (first second : Monster) (winner : String) :
    0 ≤ first.hp → 0 ≤ second.hp →
    ((battleLoop first second winner).2 : Int) ≤ first.hp + second.hp := by
  induction first, second, winner using battleLoop.induct with
  | case1 first second winner h damage second1 hdead =>
    intro _ _
    rw [battleLoop, dif_pos h]
    rw [if_pos hdead]
    simp only
    omega
  | case2 first second winner h damage1 second1 halive damage2 first1 hdead =>
    intro _ _
    rw [battleLoop, dif_pos h]
    rw [if_neg halive, if_pos hdead]
    simp only
    omega
  | case3 first second winner h damage1 second1 halive damage2 first1 halive2 ih =>
    intro _ _
    rw [battleLoop, dif_pos h]
    rw [if_neg halive, if_neg halive2]
    have e1 : first1.hp = first.hp - damageOf second.attack first.defense := rfl
    have e2 : second1.hp = second.hp - damageOf first.attack second.defense := rfl
    have hd1 := one_le_damageOf first.attack second.defense
    have hd2 := one_le_damageOf second.attack first.defense
    have hle := ih (by omega) (by omega)
    show (((battleLoop first1 second1 winner).2 + 2 : ℕ) : ℤ) ≤ first.hp + second.hp
    omega
  | case4 first second winner h =>
    intro h1 h2
    rw [battleLoop, dif_neg h]
    simp only
    omega

/-- Shape of a successful `POST /battles` run: when both UUID checks pass
and both lookups succeed, the handler inserts exactly one battle record
whose `winner` is the loop's result and answers 201 with that record. -/
theorem create_battle_ok (v : String → Bool) (db : Database) (nb : Battle)
    (fid : String) (a b : Monster)
    (hva : v nb.monster_a = true) (hvb : v nb.monster_b = true)
    (ha : MonsterRepository.get_monster_by_id db nb.monster_a = some a)
    (hb : MonsterRepository.get_monster_by_id db nb.monster_b = some b) :
    create_battle v db nb fid =
      ({ db with
          battles := db.battles ++
            [{ nb with
                id := fid,
                winner := (battleLoop (turnOrder a b).1 (turnOrder a b).2 nb.winner).1,
                created_at := none,
                updated_at := none }] },
       CreateBattleResponse.created
          { nb with
              id := fid,
              winner := (battleLoop (turnOrder a b).1 (turnOrder a b).2 nb.winner).1,
              created_at := none,
              updated_at := none }) := by
  simp only [create_battle, hva, hvb, ha, hb, Bool.not_true, not_true_eq_false,
    if_false, BattleRepository.create_battle]

end BattleApis

namespace MonsterApis

/-- A single failing CSV row makes the row-reading loop stop with the
`"Incomplete data"` error. -/
theorem readMonsters_error_of_none (rows : List (Option Monster))
    (h : none ∈ rows) :
    readMonsters rows = Except.error "Incomplete data, check your file." := by
  induction rows with
  | nil => cases h
  | cons r rest ih =>
    cases r with
    | none => rfl
    | some m =>
      have hrest : none ∈ rest := by
        rcases List.mem_cons.mp h with h1 | h1
        · cases h1
        · exact h1
      rw [readMonsters, ih hrest]

end MonsterApis

/-!  The claims. -/

/-- Claim C1: for every pair of existing creatures whose starting hp are
both strictly positive, the battle resolution in `create_battle`
terminates (structurally: `battleLoop` is a total function) and sets the
persisted battle's winner to the id of one of the two creatures; the
engine itself has no error outcome — the handler answers 201 Created. -/
theorem c1_winner_is_participant (v : String → Bool) (db : Database) (nb : Battle)
    (fid : String) (a b : Monster)
    (hva : v nb.monster_a = true) (hvb : v nb.monster_b = true)
    (ha : MonsterRepository.get_monster_by_id db nb.monster_a = some a)
    (hb : MonsterRepository.get_monster_by_id db nb.monster_b = some b)
    (hahp : 0 < a.hp) (hbhp : 0 < b.hp) :
    ∃ battle, (BattleApis.create_battle v db nb fid).2 =
        BattleApis.CreateBattleResponse.created battle ∧
      (battle.winner = a.id ∨ battle.winner = b.id) := by
  rw [BattleApis.create_battle_ok v db nb fid a b hva hvb ha hb]
  refine ⟨_, rfl, ?_⟩
  simp only
  rcases BattleApis.turnOrder_cases a b with h | h <;> rw [h]
  · simpa using BattleApis.battleLoop_winner_mem a b nb.winner hahp hbhp
  · simpa using Or.symm (BattleApis.battleLoop_winner_mem b a nb.winner hbhp hahp)

/-- Witness for C1: the scenario-1 pair (hp 50 and 40, both positive)
yields a created battle whose winner is one of the two ids. -/
theorem c1_witness :
    ∃ battle, (BattleApis.create_battle allValid dbScenario requestScenario "battle-1").2 =
        BattleApis.CreateBattleResponse.created battle ∧
      (battle.winner = scenarioA.id ∨ battle.winner = scenarioB.id) :=
  c1_winner_is_participant allValid dbScenario requestScenario "battle-1" scenarioA scenarioB
    rfl rfl (by decide) (by decide) (by decide) (by decide)

/-- Claim C2: turn order is a total, deterministic function of the two
snapshots — higher speed first; on equal speed higher attack first; in
every remaining case (equal speed, `attack_a ≤ attack_b`, including full
ties) monster b acts first.  The ordering is computed once before the loop
(`create_battle` calls `turnOrder` a single time and `battleLoop` threads
the same two roles through every round), so it never changes during the
simulation. -/
theorem c2_turn_order_total (a b : Monster) :
    (b.speed < a.speed → BattleApis.turnOrder a b = (a, b)) ∧
    (a.speed < b.speed → BattleApis.turnOrder a b = (b, a)) ∧
    (a.speed = b.speed → b.attack < a.attack → BattleApis.turnOrder a b = (a, b)) ∧
    (a.speed = b.speed → a.attack ≤ b.attack → BattleApis.turnOrder a b = (b, a)) := by
  refine ⟨fun h => ?_, fun h => ?_, fun h1 h2 => ?_, fun h1 h2 => ?_⟩ <;>
    simp only [BattleApis.turnOrder] <;>
    split_ifs <;>
    first
      | rfl
      | (exfalso; omega)

/-- Witness for C2: a strict-speed case and a full-tie case, both computed
through the theorem. -/
theorem c2_witness :
    BattleApis.turnOrder scenarioA scenarioB = (scenarioA, scenarioB) ∧
    BattleApis.turnOrder deadA aliveB = (aliveB, deadA) :=
  ⟨(c2_turn_order_total scenarioA scenarioB).1 (by decide),
   (c2_turn_order_total deadA aliveB).2.2.2 (by decide) (by decide)⟩

/-- Claim C3: every attack deals `max(attack - defense, 1)` damage: when
`attack - defense ≤ 0` it deals exactly 1 (never 0 or negative), otherwise
exactly the difference.  `battleLoop` computes both the first and the
second actor's damage with this one function `damageOf`. -/
theorem c3_damage_floor (a d : Int) :
    BattleApis.damageOf a d = max (a - d) 1 ∧
    (a - d ≤ 0 → BattleApis.damageOf a d = 1) ∧
    1 ≤ BattleApis.damageOf a d := by
  refine ⟨?_, fun h => ?_, ?_⟩ <;>
    simp only [BattleApis.damageOf] <;>
    split <;>
    omega

/-- Witness for C3: attack 5 against defense 20 deals exactly 1 damage. -/
theorem c3_witness :
    ((5 : Int) - 20 ≤ 0) ∧ BattleApis.damageOf 5 20 = 1 :=
  ⟨by decide, (c3_damage_floor 5 20).2.1 (by decide)⟩

/-- Claim C4: the combat loop terminates for any two creatures with
integer stats (structurally: `battleLoop` is accepted as a total function,
its measure `first.hp + second.hp` shrinking every round), and when both
starting hp values are non-negative it performs at most
`hp_first + hp_second` attacks. -/
theorem c4_bounded_attacks (first second : Monster) (winner : String)
    (h1 : 0 ≤ first.hp) (h2 : 0 ≤ second.hp) :
    ((BattleApis.battleLoop first second winner).2 : Int) ≤ first.hp + second.hp :=
  BattleApis.battleLoop_count_le first second winner h1 h2

/-- Witness for C4: the scenario-1 run stays under the `50 + 40` bound. -/
theorem c4_witness :
    (0 : Int) ≤ scenarioA.hp ∧ (0 : Int) ≤ scenarioB.hp ∧
    ((BattleApis.battleLoop scenarioA scenarioB "").2 : Int) ≤ scenarioA.hp + scenarioB.hp :=
  ⟨by decide, by decide, c4_bounded_attacks scenarioA scenarioB "" (by decide) (by decide)⟩

/-- Counterexample to C5 as stated: with A starting at hp 0 and B at
hp 10, the engine does NOT report B as the winner — the loop guard fails
immediately, `winner` is never assigned, and the persisted battle carries
the deserialized request value `""`, which is not B's id. -/
theorem c5_counterexample :
    (BattleApis.create_battle allValid dbDead requestDead "battle-d").2 =
      BattleApis.CreateBattleResponse.created
        { id := "battle-d", monster_a := "dead-a", monster_b := "alive-b",
          winner := "", created_at := none, updated_at := none } ∧
    aliveB.id ≠ "" := by
  constructor
  · rw [BattleApis.create_battle_ok allValid dbDead requestDead "battle-d" deadA aliveB
      rfl rfl (by decide) (by decide)]
    simp only
    rw [show BattleApis.turnOrder deadA aliveB = (aliveB, deadA) by decide]
    rw [BattleApis.battleLoop_no_iteration aliveB deadA _ (Or.inr (by decide))]
    rfl
  · decide

/-- Claim C5 as amended: if a creature starts with hp ≤ 0 the engine still
terminates, but it performs zero attacks and reports no winner of its own:
the winner value is left exactly as it entered the loop (the deserialized
request value, `""` when the client omitted it), not the opposing
creature's id. -/
theorem c5_amended_zero_attacks (first second : Monster) (winner : String)
    (h : first.hp ≤ 0 ∨ second.hp ≤ 0) :
    BattleApis.battleLoop first second winner = (winner, 0) :=
  BattleApis.battleLoop_no_iteration first second winner h

/-- Witness for C5 (amended): A at hp 0 versus B at hp 10 runs zero
attacks and keeps the incoming empty winner. -/
theorem c5_witness :
    (deadA.hp ≤ 0 ∨ aliveB.hp ≤ 0) ∧
    BattleApis.battleLoop deadA aliveB "" = ("", 0) :=
  ⟨Or.inl (by decide), c5_amended_zero_attacks deadA aliveB "" (Or.inl (by decide))⟩

/-- Claim C6: for A = (speed 50, attack 30, defense 10, hp 50) versus
B = (speed 40, attack 20, defense 5, hp 40): A acts first, A deals 25 per
hit, B deals 10 per hit, the second hit on B takes its hp to
40 - 25 - 25 = -10 ≤ 0, and the run ends with winner A after exactly 3
attacks (two rounds, the second cut short by B's death). -/
theorem c6_scenario_one :
    BattleApis.turnOrder scenarioA scenarioB = (scenarioA, scenarioB) ∧
    BattleApis.damageOf scenarioA.attack scenarioB.defense = 25 ∧
    BattleApis.damageOf scenarioB.attack scenarioA.defense = 10 ∧
    scenarioB.hp - 25 - 25 = -10 ∧
    BattleApis.battleLoop scenarioA scenarioB "" = (scenarioA.id, 3) := by
  refine ⟨by decide, by decide, by decide, by decide, ?_⟩
  simp [BattleApis.battleLoop, BattleApis.damageOf, scenarioA, scenarioB]

/-- Claim C7: resolving a battle never mutates the stored creature
records — the monsters table is unchanged on every path through
`create_battle` — and the only store change a successful battle makes is
appending the one inserted battle record. -/
theorem c7_store_frame (v : String → Bool) (db : Database) (nb : Battle) (fid : String) :
    (BattleApis.create_battle v db nb fid).1.monsters = db.monsters ∧
    ((BattleApis.create_battle v db nb fid).1.battles = db.battles ∨
      ∃ battle, (BattleApis.create_battle v db nb fid).2 =
          BattleApis.CreateBattleResponse.created battle ∧
        (BattleApis.create_battle v db nb fid).1.battles = db.battles ++ [battle]) := by
  unfold BattleApis.create_battle
  split
  · exact ⟨rfl, Or.inl rfl⟩
  · split
    · exact ⟨rfl, Or.inl rfl⟩
    · split
      · exact ⟨rfl, Or.inl rfl⟩
      · split
        · exact ⟨rfl, Or.inl rfl⟩
        · exact ⟨rfl, Or.inr ⟨_, rfl, rfl⟩⟩

/-- Counterexample to C8 as stated: `import_csv` inserts rows without ever
calling the validator, so a CSV row with attack 200 is admitted into the
store — "all stored monsters have attack in [0, 100]" is not an invariant
preserved by every insert path. -/
theorem c8_counterexample :
    (MonsterApis.import_csv emptyDb [some overAttack] csvSupply).1.monsters =
      [{ overAttack with id := "csv-0" }] ∧
    (100 : Int) < ({ overAttack with id := "csv-0" } : Monster).attack := by
  constructor
  · rfl
  · decide

/-- Claim C8 as amended: only the JSON `POST /monsters` handler enforces
the validator's attack range — it either rejects the body, leaving the
store unchanged, or inserts a monster whose attack lies in [0, 100];
`import_csv` (and the update path) perform no such check, so the bound is
not a store invariant. -/
theorem c8_amended_create_monster_range (db : Database) (m : Monster) (fid : String) :
    ((MonsterApis.create_monster db m fid).1.monsters = db.monsters ∧
      (MonsterApis.create_monster db m fid).2 =
        MonsterApis.CreateMonsterResponse.notFound "Invalid data") ∨
    ∃ m1, (MonsterApis.create_monster db m fid).1.monsters = db.monsters ++ [m1] ∧
      0 ≤ m1.attack ∧ m1.attack ≤ 100 := by
  by_cases hv : m.validate
  · right
    refine ⟨{ m with id := fid, created_at := none, updated_at := none }, ?_, ?_, ?_⟩
    · simp [MonsterApis.create_monster, hv, MonsterRepository.create_monster]
    · simp only [Monster.validate, Bool.and_eq_true, decide_eq_true_eq] at hv
      exact hv.1
    · simp only [Monster.validate, Bool.and_eq_true, decide_eq_true_eq] at hv
      exact hv.2
  · left
    constructor
    · simp [MonsterApis.create_monster, hv]
    · simp [MonsterApis.create_monster, hv]

/-- Claim C9: when at least one referenced monster starts with hp ≤ 0,
the combat loop executes zero attacks and the persisted battle's winner
is exactly the winner value deserialized from the request body (the empty
string when the client omits it) — the client-supplied value, not the
engine, determines the recorded winner. -/
theorem c9_dead_start_client_winner (v : String → Bool) (db : Database) (nb : Battle)
    (fid : String) (a b : Monster)
    (hva : v nb.monster_a = true) (hvb : v nb.monster_b = true)
    (ha : MonsterRepository.get_monster_by_id db nb.monster_a = some a)
    (hb : MonsterRepository.get_monster_by_id db nb.monster_b = some b)
    (hhp : a.hp ≤ 0 ∨ b.hp ≤ 0) :
    (BattleApis.battleLoop (BattleApis.turnOrder a b).1
        (BattleApis.turnOrder a b).2 nb.winner).2 = 0 ∧
    ∃ battle, (BattleApis.create_battle v db nb fid).2 =
        BattleApis.CreateBattleResponse.created battle ∧
      battle.winner = nb.winner := by
  have hfs : (BattleApis.turnOrder a b).1.hp ≤ 0 ∨ (BattleApis.turnOrder a b).2.hp ≤ 0 := by
    rcases BattleApis.turnOrder_cases a b with h | h <;> rw [h]
    · simpa using hhp
    · simpa using Or.symm hhp
  have hloop := BattleApis.battleLoop_no_iteration _ _ nb.winner hfs
  constructor
  · rw [hloop]
  · rw [BattleApis.create_battle_ok v db nb fid a b hva hvb ha hb]
    exact ⟨_, rfl, by simp only; rw [hloop]⟩

/-- Witness for C9: the dead-at-start pair runs zero attacks and the
persisted winner equals the request's (empty) winner. -/
theorem c9_witness :
    (BattleApis.battleLoop (BattleApis.turnOrder deadA aliveB).1
        (BattleApis.turnOrder deadA aliveB).2 requestDead.winner).2 = 0 ∧
    ∃ battle, (BattleApis.create_battle allValid dbDead requestDead "battle-d2").2 =
        BattleApis.CreateBattleResponse.created battle ∧
      battle.winner = requestDead.winner :=
  c9_dead_start_client_winner allValid dbDead requestDead "battle-d2" deadA aliveB
    rfl rfl (by decide) (by decide) (Or.inl (by decide))

/-- Claim C10: if any row of the uploaded CSV fails to deserialize,
`import_csv` answers 400 Bad Request with the store exactly as before —
no monster from the file is inserted; inserts begin only after every row
has parsed. -/
theorem c10_csv_all_or_nothing (db : Database) (rows : List (Option Monster))
    (supply : Nat → String) (h : none ∈ rows) :
    MonsterApis.import_csv db rows supply =
      (db, MonsterApis.ImportCsvResponse.badRequest "Incomplete data, check your file.") := by
  unfold MonsterApis.import_csv
  rw [MonsterApis.readMonsters_error_of_none rows h]

/-- Witness for C10: a file with one good row followed by one malformed
row is rejected wholesale, leaving the empty store empty. -/
theorem c10_witness :
    none ∈ [some overAttack, none] ∧
    MonsterApis.import_csv emptyDb [some overAttack, none] csvSupply =
      (emptyDb, MonsterApis.ImportCsvResponse.badRequest "Incomplete data, check your file.") :=
  ⟨by simp, c10_csv_all_or_nothing emptyDb [some overAttack, none] csvSupply (by simp)⟩
